import Mathlib

/-!
Shallow embedding of the gene-backend Express server (src/server.js).

The source file contains two successive versions of the same server:
the initial version (V1, lines 1 to 366) and the later stable version
(lines 367 to 754).  Both are embedded below, in the namespaces
`GenE.V1` and `GenE.Stable`; code that is identical in both versions
(intent detection, the download endpoint, the path primitives) is
defined once at the top level of `GenE`.

External collaborators are modelled as black boxes, following their
contracts: the pdf-parse and mammoth libraries appear as fields of the
uploaded file recording their outcome on that file, the unzipper
library as the list of archive entries, and the OpenAI client as a
function from the request it receives to a reply or an error.
JavaScript strings are modelled as Lean strings; the string operations
used by the server (toLowerCase, includes, endsWith, path.extname,
path.join) are defined below at the level of the underlying character
lists, matching the JavaScript behaviour on the ASCII texts the server
manipulates.
-/

namespace GenE

/-! ## JavaScript string primitives -/

/-- ASCII lower-casing of one character, as toLowerCase acts on the
ASCII range (the only range the banned terms and keywords use). -/
def lowerChar (c : Char) : Char :=
  if c.val ≥ 65 && c.val ≤ 90 then Char.ofNat (c.toNat + 32) else c

/-- Model of JavaScript message.toLowerCase(). -/
def lowerStr (s : String) : String := ⟨s.data.map lowerChar⟩

/-- Substring containment on character lists: true when pat occurs
contiguously inside the first list.  The empty pattern is contained in
every list, as with JavaScript includes. -/
def listContains : List Char → List Char → Bool
  | _, [] => true
  | [], _ => false
  | a :: as, pat => pat.isPrefixOf (a :: as) || listContains as pat

/-- Model of JavaScript s.includes(sub). -/
def jsIncludes (s sub : String) : Bool := listContains s.data sub.data

/-- Model of JavaScript s.endsWith("/"), used on zip entry paths. -/
def endsWithSlash (s : String) : Bool :=
  match s.data.getLast? with
  | some c => c = '/'
  | none => false

/-- Split a character list on a separator character; always returns at
least one (possibly empty) part. -/
def splitOnChar (sep : Char) : List Char → List (List Char)
  | [] => [[]]
  | c :: cs =>
    let rest := splitOnChar sep cs
    if c = sep then [] :: rest
    else
      match rest with
      | r :: rs => (c :: r) :: rs
      | [] => [[c]]

/-- Model of Node path.extname: the suffix of the basename starting at
its last dot, except that a dot opening the basename does not start an
extension and the basename dot-dot has none. -/
def extname (s : String) : String :=
  let base := ((splitOnChar '/' s.data).getLast?).getD []
  let after := base.reverse.takeWhile (fun c => !(c = '.'))
  if after.length = base.length then ""
  else if after.length + 1 = base.length then ""
  else if base = ['.', '.'] then ""
  else ⟨'.' :: after.reverse⟩

/-- One step of Node path normalisation: empty and dot segments vanish,
dot-dot pops the last segment (and is dropped at the root of an
absolute path), every other segment is appended. -/
def joinStep (acc : List String) (seg : String) : List String :=
  if seg = "" || seg = "." then acc
  else if seg = ".." then acc.dropLast
  else acc ++ [seg]

/-- Model of Node path.join(dir, rel) for an absolute dir given as its
list of segments: the relative part is split on slashes and the
concatenation is normalised. -/
def pathJoin (dir : List String) (rel : String) : List String :=
  (dir ++ (splitOnChar '/' rel.data).map (fun p => (⟨p⟩ : String))).foldl joinStep []

example : lowerStr "AbC自" = "abc自" := by decide
example : jsIncludes "cryptography" "crypto" = true := by decide
example : jsIncludes "carrot" "crypto" = false := by decide
example : extname "cv.pdf" = ".pdf" := by decide
example : extname "archive.tar.GZ" = ".GZ" := by decide
example : extname ".bashrc" = "" := by decide
example : extname "plain" = "" := by decide
example : pathJoin ["srv", "app"] "resume-1.pdf" = ["srv", "app", "resume-1.pdf"] := by decide
example : pathJoin ["srv", "app"] "../etc/passwd" = ["srv", "etc", "passwd"] := by decide

/-! ## Data model -/

/-- A JSON value as it reaches the handler from express.json; the
message field of the chat body is one of these, vundefined standing
for an absent field and vobj for any (truthy) object or array. -/
inductive JsVal where
  | vstr (s : String)
  | vnum (n : Int)
  | vbool (b : Bool)
  | vnull
  | vundefined
  | vobj
deriving Repr, DecidableEq

/-- JavaScript falsiness of a value, as tested by the bang in the
guard of the chat endpoint. -/
def JsVal.falsy : JsVal → Bool
  | .vstr s => s.data.isEmpty
  | .vnum n => n = 0
  | .vbool b => !b
  | .vnull => true
  | .vundefined => true
  | .vobj => false

/-- Whether typeof the value is the string type. -/
def JsVal.isString : JsVal → Bool
  | .vstr _ => true
  | _ => false

/-- The category produced by intent detection. -/
inductive Intent where
  | resume
  | interview
  | score
  | career
deriving Repr, DecidableEq

/-- One entry of a zip archive as listed by unzipper: its path inside
the archive and its byte content decoded as text, which is what
entry.buffer().toString() yields. -/
structure ZipEntry where
  path : String
  content : String
deriving Repr, DecidableEq

deriving instance DecidableEq for Except

/-- An uploaded file together with the outcomes of the black-box
parsing libraries on its bytes.  bytes is the UTF-8 decoding of the
on-disk content, as fs.readFileSync with utf8 returns it; pdfParse is
the text field of the pdf-parse result or the thrown error; docx is
the value field of the mammoth result or the thrown error; zipEntries
is the files list of the unzipper directory. -/
structure UploadedFile where
  originalname : String
  bytes : String
  pdfParse : Except String String
  docx : Except String String
  zipEntries : List ZipEntry
deriving Repr, DecidableEq

/-- One request sent to the OpenAI responses API: the system message
and the user message of the input array. -/
structure GatewayCall where
  system : String
  user : String
deriving Repr, DecidableEq

/-- The model gateway as a black box: each call either returns the
output text of the response or throws. -/
abbrev Gateway := GatewayCall → Except String String

/-- The observable outcome of one chat request: the HTTP status, the
fields of the JSON body (absent fields are none), the calls made to
the model gateway, and the artifact files written to disk. -/
structure ChatOutcome where
  status : Nat
  reply : Option String
  pdf : Option String
  error : Option String
  gatewayCalls : List GatewayCall
  artifactsWritten : List String
deriving Repr, DecidableEq

/-- The observable outcome of one upload request: the HTTP status, the
JSON body fields, the calls made to the model gateway, and whether the
uploaded temporary file was deleted. -/
structure UploadOutcome where
  status : Nat
  reply : Option String
  error : Option String
  gatewayCalls : List GatewayCall
  fileDeleted : Bool
deriving Repr, DecidableEq

/-- The observable outcome of one download request: either the file at
the resolved path is streamed back, or a 404 is returned. -/
inductive DownloadResult where
  | serve (path : List String) (content : String)
  | notFound
deriving Repr, DecidableEq

/-! ## Code shared by both versions -/

/-- The fixed refusal string of the guardrail. -/
def REFUSAL : String := "I am designed only for career and education guidance."

/-- Intent detection, identical in both versions (server.js lines
113 to 121 and 474 to 482): lower-case the message, then first match
in priority order resume, interview, score or readiness, else the
career default. -/
def detectIntent (message : String) : Intent :=
  let msg := lowerStr message
  if jsIncludes msg "resume" then .resume
  else if jsIncludes msg "interview" then .interview
  else if jsIncludes msg "score" || jsIncludes msg "readiness" then .score
  else .career

/-- The artifact file name chosen by generateResumePDF: resume- and
the current time in milliseconds and the pdf extension (server.js
lines 127 to 142). -/
def resumeFileName (now : Nat) : String :=
  "resume-" ++ Nat.repr now ++ ".pdf"

/-- The download endpoint, identical in both versions (server.js lines
336 to 344 and 724 to 732): join the server directory with the raw
route parameter, 404 when nothing exists there, otherwise stream the
file at the resolved path.  fsys maps an absolute path to the content
of the file there, if any. -/
def downloadHandler (fsys : List String → Option String) (dirname : List String)
    (fileParam : String) : DownloadResult :=
  let filePath := pathJoin dirname fileParam
  match fsys filePath with
  | some c => .serve filePath c
  | none => .notFound

/-! ## Initial version (server.js lines 1 to 366) -/

namespace V1

/-- The system message of every model call (server.js lines 65 to 81). -/
def SYSTEM_PROMPT : String :=
  "\nYou are GEN-E, a structured AI Career Assistant.\n\nYou ONLY answer career and education related queries.\n\nIf user asks about politics, religion, health, crypto,\nrelationships or unrelated topics, respond:\n\n\"I am designed only for career and education guidance.\"\n\nResponse Style:\n- Structured markdown\n- Clear headings\n- Bullet points\n- Practical and concise\n- End with next action step\n"

/-- The banned-term list of the guardrail (server.js lines 88 to 98). -/
def banned : List String :=
  ["politics", "religion", "crypto", "relationship", "dating",
   "medical", "health advice", "trading", "betting"]

/-- The guardrail (server.js lines 87 to 107): lower-case the message
and return the fixed refusal when some banned term occurs in it as a
substring, else nothing. -/
def guardrail (message : String) : Option String :=
  let lower := lowerStr message
  if banned.any (fun word => jsIncludes lower word) then some REFUSAL
  else none

/-- The prompt the chat endpoint builds for each intent (server.js
lines 202 to 266); each branch wraps the raw message in the template
of its category. -/
def buildPrompt : Intent → String → String
  | .resume, m =>
      "\nCreate an ATS-friendly resume using:\n\n" ++ m ++
      "\n\nFormat strictly:\n\n## Professional Summary\n## Core Skills\n## Experience\n## Projects\n## Education\n"
  | .interview, m =>
      "\nPrepare interview guidance for:\n\n" ++ m ++
      "\n\nInclude:\n\n## Quick Analysis\n## HR Questions\n## Technical Questions\n## STAR Strategy\n## Practical Next Step\n"
  | .score, m =>
      "\nEvaluate career readiness based on:\n\n" ++ m ++
      "\n\nReturn:\n\nCareer Readiness Score: XX%\n\n## Strengths\n## Skill Gaps\n## Action Plan\n"
  | .career, m =>
      "\nProvide structured career guidance for:\n\n" ++ m ++
      "\n\nInclude:\n\n## Quick Analysis\n## Recommended Roles\n## Skill Gaps\n## Action Plan\n## Practical Next Step\n"

/-- The chat endpoint (server.js lines 189 to 295).  The message is
rejected with 400 when falsy or not a string; a guardrail match is
answered directly without touching the gateway; otherwise the prompt
of the detected intent is sent to the gateway, a resume reply is also
rendered to a pdf artifact named from the current time, and a gateway
error yields 500. -/
def chatHandler (gateway : Gateway) (now : Nat) (message : JsVal) : ChatOutcome :=
  if message.falsy || !message.isString then
    ⟨400, none, none, some "Invalid message", [], []⟩
  else
    let s := match message with | .vstr s => s | _ => ""
    match guardrail s with
    | some blocked => ⟨200, some blocked, none, none, [], []⟩
    | none =>
      let intent := detectIntent s
      let userPrompt := buildPrompt intent s
      let call : GatewayCall := ⟨SYSTEM_PROMPT, userPrompt⟩
      match gateway call with
      | .ok output =>
        if intent = .resume then
          let fileName := resumeFileName now
          ⟨200, some output, some ("/download/" ++ fileName), none, [call], [fileName]⟩
        else
          ⟨200, some output, none, none, [call], []⟩
      | .error _ => ⟨500, none, none, some "AI processing failed", [call], []⟩

/-- The initial content extractor (server.js lines 148 to 183),
dispatching on the lower-cased extension of the original name.  No
branch catches: a pdf-parse or mammoth failure propagates to the
caller as an error.  The zip branch appends, for every entry whose
path does not end in a slash, the entry content and a blank line. -/
def extractTextFromFile (file : UploadedFile) : Except String String :=
  let ext := lowerStr (extname file.originalname)
  if ext = ".pdf" then file.pdfParse
  else if ext = ".docx" then file.docx
  else if ext = ".txt" then .ok file.bytes
  else if ext = ".zip" then
    .ok (file.zipEntries.foldl
      (fun combined entry =>
        if !(endsWithSlash entry.path) then combined ++ entry.content ++ "\n\n"
        else combined)
      "")
  else .ok "Unsupported file format."

/-- The upload endpoint (server.js lines 301 to 330): 400 without a
file; otherwise the extracted text is embedded in the analysis prompt
and sent to the gateway.  Any error thrown by extraction or by the
gateway is caught and answered with 500.  No branch deletes the
uploaded temporary file. -/
def uploadHandler (gateway : Gateway) (file : Option UploadedFile) : UploadOutcome :=
  match file with
  | none => ⟨400, none, some "No file uploaded", [], false⟩
  | some f =>
    match extractTextFromFile f with
    | .error _ => ⟨500, none, some "File processing failed", [], false⟩
    | .ok extractedText =>
      let call : GatewayCall := ⟨SYSTEM_PROMPT, "Analyze this document:\n\n" ++ extractedText⟩
      match gateway call with
      | .ok output => ⟨200, some output, none, [call], false⟩
      | .error _ => ⟨500, none, some "File processing failed", [call], false⟩

end V1

/-! ## Stable version (server.js lines 367 to 754) -/

namespace Stable

/-- The system message of every model call (server.js lines 426 to 442). -/
def SYSTEM_PROMPT : String :=
  "\nYou are GEN-E, a structured AI Career Assistant.\n\nYou ONLY answer career and education related queries.\n\nIf user asks about politics, religion, crypto,\nrelationships, medical advice or unrelated topics, respond:\n\n\"I am designed only for career and education guidance.\"\n\nResponse Style:\n- Structured markdown\n- Clear headings\n- Bullet points\n- Concise and practical\n- End with next action step\n"

/-- The banned-term list of the stable guardrail (server.js lines 449
to 459); health replaces the earlier health advice. -/
def banned : List String :=
  ["politics", "religion", "crypto", "relationship", "dating",
   "medical", "health", "trading", "betting"]

/-- The stable guardrail (server.js lines 448 to 468). -/
def guardrail (message : String) : Option String :=
  let lower := lowerStr message
  if banned.any (fun word => jsIncludes lower word) then some REFUSAL
  else none

/-- The stable content extractor (server.js lines 509 to 558).  The
pdf and docx branches catch their library failure and return a fixed
sentinel instead; the txt, zip and fallback branches are as in the
initial version, so the whole function is total. -/
def extractTextFromFile (file : UploadedFile) : String :=
  let ext := lowerStr (extname file.originalname)
  if ext = ".pdf" then
    match file.pdfParse with
    | .ok t => t
    | .error _ => "Could not extract text from PDF."
  else if ext = ".docx" then
    match file.docx with
    | .ok t => t
    | .error _ => "Could not extract text from DOCX."
  else if ext = ".txt" then file.bytes
  else if ext = ".zip" then
    file.zipEntries.foldl
      (fun combined entry =>
        if !(endsWithSlash entry.path) then combined ++ entry.content ++ "\n\n"
        else combined)
      ""
  else "Unsupported file format."

/-- The analysis prompt of the stable upload endpoint (server.js lines
688 to 702), embedding the extracted text. -/
def analysisPrompt (extractedText : String) : String :=
  "\nThe user uploaded a career document.\n\nAnalyze it and provide:\n\n## Document Summary\n## Strengths\n## Weaknesses\n## Career Readiness Score (0-100%)\n## Improvement Suggestions\n## Clarifying Questions\n\nDocument content:\n" ++ extractedText ++ "\n"

/-- The stable upload endpoint (server.js lines 674 to 718): 400
without a file; otherwise extraction (total here), the gateway call,
then fs.unlinkSync on the temporary file, then the 200 reply.  The
deletion sits inside the try block after the gateway call, so a
gateway failure reaches the catch with the file still on disk. -/
def uploadHandler (gateway : Gateway) (file : Option UploadedFile) : UploadOutcome :=
  match file with
  | none => ⟨400, none, some "No file uploaded", [], false⟩
  | some f =>
    let extractedText := extractTextFromFile f
    let call : GatewayCall := ⟨SYSTEM_PROMPT, analysisPrompt extractedText⟩
    match gateway call with
    | .ok output => ⟨200, some output, none, [call], true⟩
    | .error _ => ⟨500, none, some "File processing failed", [call], false⟩

end Stable

/-! ## Concrete inputs used by witnesses and counterexamples -/

/-- A gateway stub that answers every call. -/
def stubGateway : Gateway := fun _ => .ok "stub reply"

/-- A gateway stub whose call always throws. -/
def failGateway : Gateway := fun _ => .error "api down"

/-- A pdf upload on which pdf-parse throws. -/
def badPdf : UploadedFile := ⟨"cv.pdf", "", .error "bad xref", .ok "", []⟩

/-- A zip upload holding two text entries. -/
def twoEntryZip : UploadedFile :=
  ⟨"docs.zip", "", .ok "", .ok "", [⟨"a.txt", "A"⟩, ⟨"b.txt", "B"⟩]⟩

/-- A zip upload holding only a directory entry. -/
def dirOnlyZip : UploadedFile := ⟨"empty.zip", "", .ok "", .ok "", [⟨"folder/", ""⟩]⟩

/-- A plain text upload. -/
def notesTxt : UploadedFile := ⟨"notes.txt", "hello world", .ok "", .ok "", []⟩

/-- A filesystem holding one file outside the server directory. -/
def secretFS : List String → Option String :=
  fun p => if p = ["home", "secret"] then some "top secret" else none

/-! ## Helper lemmas -/

theorem listContains_ne_nil {l pat : List Char} (h : listContains l pat = true)
    (hp : pat ≠ []) : l ≠ [] := by
  cases pat with
  | nil => exact absurd rfl hp
  | cons p ps =>
    cases l with
    | nil => simp [listContains] at h
    | cons a as => simp

theorem data_ne_nil_of_jsIncludes {s w : String} (hw : w ≠ "")
    (h : jsIncludes s w = true) : s.data ≠ [] := by
  have hwd : w.data ≠ [] := by
    intro hd
    exact hw (String.ext (by simp [hd]))
  simp only [jsIncludes] at h
  exact listContains_ne_nil h hwd

/-- A message in which some nonempty string occurs after lower-casing
is itself nonempty. -/
theorem isEmpty_false_of_jsIncludes_lower {m w : String} (hw : w ≠ "")
    (h : jsIncludes (lowerStr m) w = true) : m.data.isEmpty = false := by
  have hld : (lowerStr m).data ≠ [] := data_ne_nil_of_jsIncludes hw h
  cases hd : m.data with
  | nil => exact absurd (by simp [lowerStr, hd]) hld
  | cons a as => rfl

theorem V1.banned_ne_empty : ∀ w ∈ V1.banned, w ≠ "" := by decide

/-- A banned term occurring in the lower-cased message makes the V1
guardrail answer the refusal. -/
theorem V1.guardrail_eq_refusal {m w : String} (hw : w ∈ V1.banned)
    (h : jsIncludes (lowerStr m) w = true) : V1.guardrail m = some REFUSAL := by
  have hany : V1.banned.any (fun word => jsIncludes (lowerStr m) word) = true :=
    List.any_eq_true.mpr ⟨w, hw, h⟩
  simp [V1.guardrail, hany]

/-- A firing V1 guardrail yields the refusal and only fires on a
nonempty message. -/
theorem V1.guardrail_some_inv {m r : String} (h : V1.guardrail m = some r) :
    r = REFUSAL ∧ m.data.isEmpty = false := by
  simp only [V1.guardrail] at h
  split at h
  case isTrue hc =>
    obtain ⟨w, hw, hcw⟩ := List.any_eq_true.mp hc
    exact ⟨(Option.some.injEq _ _ ▸ h).symm,
      isEmpty_false_of_jsIncludes_lower (V1.banned_ne_empty w hw) hcw⟩
  case isFalse hc => cases h

/-- A firing guardrail short-circuits the V1 chat endpoint: the
refusal comes back as the 200 reply and nothing else happens. -/
theorem V1.chat_guardrail_reply (g : Gateway) (now : Nat) {m r : String}
    (hg : V1.guardrail m = some r) :
    V1.chatHandler g now (.vstr m) = ⟨200, some r, none, none, [], []⟩ := by
  have hm := (V1.guardrail_some_inv hg).2
  simp [V1.chatHandler, JsVal.falsy, JsVal.isString, hm, hg]

theorem empty_append (s : String) : "" ++ s = s := by
  apply String.ext; simp

theorem append_empty (s : String) : s ++ "" = s := by
  apply String.ext; simp

theorem join_cons (s : String) (l : List String) :
    String.join (s :: l) = s ++ String.join l := by
  apply String.ext
  simp [String.join_eq]

theorem join_map_empty {α : Type} (l : List α) (f : α → String)
    (h : ∀ x ∈ l, f x = "") : String.join (l.map f) = "" := by
  induction l with
  | nil => rfl
  | cons a as ih =>
    rw [List.map_cons, join_cons, h a (by simp),
      ih (fun x hx => h x (by simp [hx]))]
    exact empty_append ""

/-- The zip accumulation loop produces, from any starting accumulator,
that accumulator followed by the concatenation over the entries, in
order, of nothing for a directory entry and of the entry content plus
a blank line otherwise. -/
theorem zipFold_join (l : List ZipEntry) (acc : String) :
    l.foldl
      (fun combined entry =>
        if !(endsWithSlash entry.path) then combined ++ entry.content ++ "\n\n"
        else combined)
      acc
    = acc ++ String.join (l.map fun e =>
        if endsWithSlash e.path then "" else e.content ++ "\n\n") := by
  induction l generalizing acc with
  | nil =>
    rw [List.foldl_nil, List.map_nil]
    exact (append_empty acc).symm
  | cons e es ih =>
    rw [List.foldl_cons, List.map_cons, join_cons, ih]
    by_cases hd : endsWithSlash e.path
    · rw [hd]
      apply String.ext
      simp
    · rw [Bool.not_eq_true] at hd
      rw [hd]
      apply String.ext
      simp

/-- Dispatch of the initial extractor on a zip file. -/
theorem V1.extract_zip (f : UploadedFile)
    (h : lowerStr (extname f.originalname) = ".zip") :
    V1.extractTextFromFile f =
      .ok (String.join (f.zipEntries.map fun e =>
        if endsWithSlash e.path then "" else e.content ++ "\n\n")) := by
  have hfold := zipFold_join f.zipEntries ""
  rw [empty_append] at hfold
  simp [V1.extractTextFromFile, h]
  simpa using hfold

/-! ## Claims -/

/-- Claim C1: every input text containing, case-insensitively as a
substring, one of the banned terms of the guardrail list is answered
by the fixed refusal string, and the chat endpoint short-circuits on
it: the model gateway receives no call for that request. -/
theorem claim_C1 (g : Gateway) (now : Nat) (m w : String)
    (hw : w ∈ V1.banned) (hc : jsIncludes (lowerStr m) w = true) :
    V1.guardrail m = some REFUSAL ∧
    V1.chatHandler g now (.vstr m) =
      ⟨200, some REFUSAL, none, none, [], []⟩ := by
  have hg := V1.guardrail_eq_refusal hw hc
  exact ⟨hg, V1.chat_guardrail_reply g now hg⟩

theorem claim_C1_witness :
    "crypto" ∈ V1.banned ∧
    jsIncludes (lowerStr "Tell me about Crypto") "crypto" = true ∧
    V1.chatHandler stubGateway 0 (.vstr "Tell me about Crypto") =
      ⟨200, some REFUSAL, none, none, [], []⟩ :=
  ⟨by decide, by decide,
    (claim_C1 stubGateway 0 "Tell me about Crypto" "crypto" (by decide) (by decide)).2⟩

/-- Claim C4: any text containing resume case-insensitively classifies
as resume whatever else it contains; classification follows the
priority order resume, interview, score, career, with score and
readiness both mapping to score and career as the default. -/
theorem claim_C4 (m : String) :
    (jsIncludes (lowerStr m) "resume" = true → detectIntent m = .resume) ∧
    (jsIncludes (lowerStr m) "resume" = false →
      jsIncludes (lowerStr m) "interview" = true → detectIntent m = .interview) ∧
    (jsIncludes (lowerStr m) "resume" = false →
      jsIncludes (lowerStr m) "interview" = false →
      (jsIncludes (lowerStr m) "score" = true ∨ jsIncludes (lowerStr m) "readiness" = true) →
      detectIntent m = .score) ∧
    (jsIncludes (lowerStr m) "resume" = false →
      jsIncludes (lowerStr m) "interview" = false →
      jsIncludes (lowerStr m) "score" = false →
      jsIncludes (lowerStr m) "readiness" = false →
      detectIntent m = .career) := by
  refine ⟨fun h1 => by simp [detectIntent, h1],
    fun h1 h2 => by simp [detectIntent, h1, h2],
    fun h1 h2 h3 => ?_,
    fun h1 h2 h3 h4 => by simp [detectIntent, h1, h2, h3, h4]⟩
  rcases h3 with h3 | h3 <;> simp [detectIntent, h1, h2, h3]

theorem claim_C4_witness :
    jsIncludes (lowerStr "Resume and interview and score tips") "resume" = true ∧
    detectIntent "Resume and interview and score tips" = .resume :=
  ⟨by decide, (claim_C4 "Resume and interview and score tips").1 (by decide)⟩

/-- Claim C5: a chat body whose message is missing, not a string, or
the empty string is answered with 400 and an error body; the model
gateway receives no call and no artifact is written. -/
theorem claim_C5 (g : Gateway) (now : Nat) (v : JsVal)
    (h : v = .vundefined ∨ v.isString = false ∨ v = .vstr "") :
    V1.chatHandler g now v = ⟨400, none, none, some "Invalid message", [], []⟩ := by
  rcases h with h | h | h
  · subst h; rfl
  · cases v with
    | vstr s => exact absurd h (by simp [JsVal.isString])
    | vnum n => simp [V1.chatHandler, JsVal.isString]
    | vbool b => simp [V1.chatHandler, JsVal.isString]
    | vnull => rfl
    | vundefined => rfl
    | vobj => simp [V1.chatHandler, JsVal.isString]
  · subst h; rfl

theorem claim_C5_witness :
    ((.vstr "" : JsVal) = .vundefined ∨ (JsVal.vstr "").isString = false ∨
      (.vstr "" : JsVal) = .vstr "") ∧
    V1.chatHandler stubGateway 0 (.vstr "") =
      ⟨400, none, none, some "Invalid message", [], []⟩ :=
  ⟨Or.inr (Or.inr rfl), claim_C5 stubGateway 0 (.vstr "") (Or.inr (Or.inr rfl))⟩

/-- Claim C9: a message on which the guardrail fires is answered with
HTTP 200 and a body holding exactly the refusal reply: no pdf field,
no error field, indistinguishable at the status level from a normal
reply. -/
theorem claim_C9 (g : Gateway) (now : Nat) (m r : String)
    (h : V1.guardrail m = some r) :
    V1.chatHandler g now (.vstr m) = ⟨200, some r, none, none, [], []⟩ :=
  V1.chat_guardrail_reply g now h

theorem claim_C9_witness :
    V1.guardrail "dating advice please" = some REFUSAL ∧
    V1.chatHandler stubGateway 0 (.vstr "dating advice please") =
      ⟨200, some REFUSAL, none, none, [], []⟩ :=
  ⟨by decide, claim_C9 stubGateway 0 "dating advice please" REFUSAL (by decide)⟩

/-- Claim C2 counterexample: in the initial version of the extractor
a pdf whose parse throws makes extraction itself throw, and the upload
endpoint then answers 500 without ever calling the model: the failure
is not swallowed into a sentinel there. -/
theorem claim_C2_counterexample :
    V1.extractTextFromFile badPdf = .error "bad xref" ∧
    V1.uploadHandler stubGateway (some badPdf) =
      ⟨500, none, some "File processing failed", [], false⟩ :=
  ⟨by decide, by decide⟩

/-- Claim C2 as amended: in the stable version of the extractor a
failing pdf parse yields the fixed sentinel, which the stable upload
endpoint forwards to the model embedded in the analysis prompt; in the
initial version the failure instead propagates, and the upload
endpoint answers 500 without calling the model. -/
theorem claim_C2 (f : UploadedFile) (err : String) (g : Gateway)
    (hext : lowerStr (extname f.originalname) = ".pdf")
    (hp : f.pdfParse = .error err) :
    Stable.extractTextFromFile f = "Could not extract text from PDF." ∧
    (Stable.uploadHandler g (some f)).gatewayCalls =
      [⟨Stable.SYSTEM_PROMPT,
        Stable.analysisPrompt "Could not extract text from PDF."⟩] ∧
    V1.extractTextFromFile f = .error err ∧
    (V1.uploadHandler g (some f)).status = 500 ∧
    (V1.uploadHandler g (some f)).gatewayCalls = [] := by
  have hs : Stable.extractTextFromFile f = "Could not extract text from PDF." := by
    simp [Stable.extractTextFromFile, hext, hp]
  have hv : V1.extractTextFromFile f = .error err := by
    simp [V1.extractTextFromFile, hext, hp]
  refine ⟨hs, ?_, hv, ?_, ?_⟩
  · simp only [Stable.uploadHandler, hs]
    cases hgc : g ⟨Stable.SYSTEM_PROMPT,
        Stable.analysisPrompt "Could not extract text from PDF."⟩ with
    | ok o => simp [hgc]
    | error e => simp [hgc]
  · simp [V1.uploadHandler, hv]
  · simp [V1.uploadHandler, hv]

theorem claim_C2_witness :
    lowerStr (extname badPdf.originalname) = ".pdf" ∧
    badPdf.pdfParse = .error "bad xref" ∧
    Stable.extractTextFromFile badPdf = "Could not extract text from PDF." ∧
    (Stable.uploadHandler stubGateway (some badPdf)).gatewayCalls =
      [⟨Stable.SYSTEM_PROMPT,
        Stable.analysisPrompt "Could not extract text from PDF."⟩] :=
  ⟨by decide, rfl,
    (claim_C2 badPdf "bad xref" stubGateway (by decide) rfl).1,
    (claim_C2 badPdf "bad xref" stubGateway (by decide) rfl).2.1⟩

/-- Claim C3 counterexample: the stable upload flow does not delete
the temporary file when the model call fails, and the initial upload
flow does not delete it even on full success. -/
theorem claim_C3_counterexample :
    (Stable.uploadHandler failGateway (some notesTxt)).fileDeleted = false ∧
    (Stable.uploadHandler failGateway (some notesTxt)).status = 500 ∧
    (V1.uploadHandler stubGateway (some notesTxt)).fileDeleted = false ∧
    (V1.uploadHandler stubGateway (some notesTxt)).status = 200 :=
  ⟨by decide, by decide, by decide, by decide⟩

/-- Claim C3 as amended: the uploaded temporary file is deleted only
in the stable flow and only on a fully successful request, deletion
coinciding with the 200 status; on every failure path, and always in
the initial flow, the file stays on disk. -/
theorem claim_C3 (f : UploadedFile) (g : Gateway) :
    (Stable.uploadHandler g (some f)).fileDeleted =
      ((Stable.uploadHandler g (some f)).status == 200) ∧
    (V1.uploadHandler g (some f)).fileDeleted = false := by
  constructor
  · simp only [Stable.uploadHandler]
    cases hgc : g ⟨Stable.SYSTEM_PROMPT,
        Stable.analysisPrompt (Stable.extractTextFromFile f)⟩ with
    | ok o => simp [hgc]
    | error e => simp [hgc]
  · simp only [V1.uploadHandler]
    cases hext : V1.extractTextFromFile f with
    | error e => simp [hext]
    | ok t =>
      cases hgc : g ⟨V1.SYSTEM_PROMPT, "Analyze this document:\n\n" ++ t⟩ with
      | ok o => simp [hext, hgc]
      | error e => simp [hext, hgc]

/-- Claim C6 counterexample: a zip of two text entries extracts with a
blank-line separator appended after every entry, the last included, so
the result is not the two contents joined by a single separator. -/
theorem claim_C6_counterexample :
    V1.extractTextFromFile twoEntryZip = .ok "A\n\nB\n\n" ∧
    ("A\n\nB\n\n" : String) ≠ "A" ++ "\n\n" ++ "B" :=
  ⟨by decide, by decide⟩

/-- Claim C6 as amended: extraction of a zip concatenates, in archive
entry order, every non-directory entry content each followed by a
blank-line separator, the trailing separator included; directory
entries contribute nothing. -/
theorem claim_C6 (f : UploadedFile)
    (h : lowerStr (extname f.originalname) = ".zip") :
    V1.extractTextFromFile f =
      .ok (String.join (f.zipEntries.map fun e =>
        if endsWithSlash e.path then "" else e.content ++ "\n\n")) :=
  V1.extract_zip f h

theorem claim_C6_witness :
    lowerStr (extname twoEntryZip.originalname) = ".zip" ∧
    V1.extractTextFromFile twoEntryZip =
      .ok (String.join (twoEntryZip.zipEntries.map fun e =>
        if endsWithSlash e.path then "" else e.content ++ "\n\n")) :=
  ⟨by decide, claim_C6 twoEntryZip (by decide)⟩

/-- Claim C7: extraction of a txt file returns its UTF-8 text content
verbatim. -/
theorem claim_C7 (f : UploadedFile)
    (h : lowerStr (extname f.originalname) = ".txt") :
    V1.extractTextFromFile f = .ok f.bytes := by
  simp [V1.extractTextFromFile, h]

theorem claim_C7_witness :
    lowerStr (extname notesTxt.originalname) = ".txt" ∧
    V1.extractTextFromFile notesTxt = .ok "hello world" :=
  ⟨by decide, claim_C7 notesTxt (by decide)⟩

/-- Claim C8: the download endpoint serves the file at the join of the
server directory and the raw route parameter whenever one exists,
with no restriction of the resolved path to the artifact directory; a
parameter with a dot-dot segment resolves outside that directory. -/
theorem claim_C8 (fsys : List String → Option String) (dir : List String)
    (p c : String) :
    (fsys (pathJoin dir p) = some c →
      downloadHandler fsys dir p = .serve (pathJoin dir p) c) ∧
    (fsys (pathJoin dir p) = none →
      downloadHandler fsys dir p = .notFound) ∧
    pathJoin ["home", "app"] "../secret" = ["home", "secret"] ∧
    (∀ rest : List String,
      pathJoin ["home", "app"] "../secret" ≠ ["home", "app"] ++ rest) := by
  refine ⟨fun h => by simp [downloadHandler, h],
    fun h => by simp [downloadHandler, h], by decide, ?_⟩
  intro rest hr
  rw [show pathJoin ["home", "app"] "../secret" = ["home", "secret"] from by decide] at hr
  have h2 : (["home", "secret"] : List String)[1]? = (["home", "app"] ++ rest)[1]? :=
    congrArg (fun l : List String => l[1]?) hr
  simp at h2

theorem claim_C8_witness :
    secretFS (pathJoin ["home", "app"] "../secret") = some "top secret" ∧
    downloadHandler secretFS ["home", "app"] "../secret" =
      .serve (pathJoin ["home", "app"] "../secret") "top secret" :=
  ⟨by decide,
    (claim_C8 secretFS ["home", "app"] "../secret" "top secret").1 (by decide)⟩

/-- Claim C10: a zip with no non-directory entry extracts to the empty
string, and the upload endpoint then calls the model gateway with the
analysis prompt wrapping that empty string as document content. -/
theorem claim_C10 (f : UploadedFile) (g : Gateway)
    (hz : lowerStr (extname f.originalname) = ".zip")
    (hd : ∀ e ∈ f.zipEntries, endsWithSlash e.path = true) :
    V1.extractTextFromFile f = .ok "" ∧
    (V1.uploadHandler g (some f)).gatewayCalls =
      [⟨V1.SYSTEM_PROMPT, "Analyze this document:\n\n"⟩] := by
  have hext : V1.extractTextFromFile f = .ok "" := by
    rw [V1.extract_zip f hz,
      join_map_empty f.zipEntries _ (fun e he => by simp [hd e he])]
  refine ⟨hext, ?_⟩
  simp only [V1.uploadHandler, hext]
  cases hgc : g ⟨V1.SYSTEM_PROMPT, "Analyze this document:\n\n" ++ ""⟩ with
  | ok o => simp [hgc, append_empty]
  | error e => simp [hgc, append_empty]

theorem claim_C10_witness :
    lowerStr (extname dirOnlyZip.originalname) = ".zip" ∧
    (∀ e ∈ dirOnlyZip.zipEntries, endsWithSlash e.path = true) ∧
    V1.extractTextFromFile dirOnlyZip = .ok "" ∧
    (V1.uploadHandler stubGateway (some dirOnlyZip)).gatewayCalls =
      [⟨V1.SYSTEM_PROMPT, "Analyze this document:\n\n"⟩] :=
  ⟨by decide, by decide,
    (claim_C10 dirOnlyZip stubGateway (by decide) (by decide)).1,
    (claim_C10 dirOnlyZip stubGateway (by decide) (by decide)).2⟩

end GenE
